import Mathlib

/-!
Verification of the `yeheng/monitor` endpoint-monitoring platform against its
specification. The development shallowly embeds the host-side Rust code:

* the value bridge and script engine of `monitor-scripting/src/engine.rs`
  (the foreign QuickJS evaluation step appears as an explicit outcome
  parameter, exactly the data the host receives back from `ctx.eval`);
* the check executor and cron dispatcher of `monitor-scheduler/src/scheduler.rs`
  (the foreign HTTP transaction appears as an `HttpOutcome`, the cron backend
  as a job-registration function);
* the configuration loader of `monitor-core/src/config.rs` (the process
  environment appears as a partial map from variable names to values).

Machine integers that cannot overflow on the values in play are modelled as
`Int`/`Nat`. JavaScript numbers are modelled by their exact value restricted to
the integer-valued subset (no claim in scope involves fractional values);
what matters to the claims is `serde_json`'s distinction between the
integer-represented and float-represented variants of `serde_json::Number`,
which `SerdeNum` keeps.
-/

/-- A `serde_json::Number`. The crate stores either an integer variant
(`PosInt`/`NegInt`) or a float variant, and its `PartialEq` never identifies an
integer-represented number with a float-represented one. Only integer-valued
floats occur in the claims, so the float payload is an `Int`. -/
inductive SerdeNum where
  | int (n : Int)
  | float (n : Int)
deriving Repr

/-- A `serde_json::Value`. Objects are `BTreeMap`s in the source; they are
modelled as association lists kept in the map's canonical (sorted-key) order,
which is also the order every object literal below is written in. -/
inductive Json where
  | null
  | bool (b : Bool)
  | num (n : SerdeNum)
  | str (s : String)
  | arr (xs : List Json)
  | obj (fields : List (String × Json))
deriving Repr

/-- Field lookup on a JSON object, as `serde_json::Value::get` used at
`engine.rs:582` (`e.get("message")`). Non-objects have no fields. -/
def Json.getField : Json → String → Option Json
  | .obj fields, key => fields.lookup key
  | _, _ => none

/-- String extraction, as `serde_json::Value::as_str` at `engine.rs:583`. -/
def Json.asString : Json → Option String
  | .str s => some s
  | _ => none

/-- A JavaScript number as classified by `js_value_to_serde_value`
(`engine.rs:622-631`): `as_number` yields an `f64` that is NaN, infinite
(with a sign), or finite. Finite values are restricted to integers. -/
inductive JsNum where
  | finite (v : Int)
  | nan
  | inf (positive : Bool)
deriving Repr

/-- A sandbox (`rquickjs`) value, as discriminated by the chain of tests in
`js_value_to_serde_value` (`engine.rs:612-714`): `is_undefined`, `is_null`,
`is_bool`, `is_number`, `is_string`, `is_array`, `is_function`, `is_object`
(with the object's `constructor.name` distinguishing `Date`, `RegExp` and
`Error` instances, which therefore appear as dedicated constructors carrying
their actual data), `is_symbol`, and the fallback. -/
inductive JsVal where
  | undef
  | null
  | bool (b : Bool)
  | num (n : JsNum)
  | str (s : String)
  | arr (xs : List JsVal)
  | fn (name : String)
  | date (timestampMs : Int)
  | regexp (source : String)
  | errorObj (name : String) (message : String)
  | obj (props : List (String × JsVal))
  | symbol (description : String)
deriving Repr

mutual

/-- The sandbox-to-host half of the value bridge, `js_value_to_serde_value`
(`engine.rs:612-714`). Notable translations taken verbatim from the source:
finite numbers go through `as_number`'s `f64` and `json!(num)`, hence always
re-enter `serde_json` float-represented; `undefined`, `NaN` and infinities
become tagged objects; an object whose `constructor.name` is `"Date"` yields
the constant `{"__type":"Date","timestamp":"date_object"}` (engine.rs:667-671)
and a `RegExp` the constant `{"__type":"RegExp","source":"regex_pattern"}`
(engine.rs:673-677); `Error` objects keep their real `name` and `message`.
Object fields are written in `BTreeMap` key order. -/
def jsValueToSerdeValue : JsVal → Json
  | .undef => Json.obj [("__type", .str "undefined")]
  | .null => .null
  | .bool b => .bool b
  | .num (.finite v) => .num (.float v)
  | .num .nan => Json.obj [("__type", .str "NaN")]
  | .num (.inf pos) => Json.obj [("__type", .str "Infinity"), ("positive", .bool pos)]
  | .str s => .str s
  | .arr xs => .arr (jsArrToSerde xs)
  | .fn _ => Json.obj [("__type", .str "function"), ("name", .str "function")]
  | .date _ => Json.obj [("__type", .str "Date"), ("timestamp", .str "date_object")]
  | .regexp _ => Json.obj [("__type", .str "RegExp"), ("source", .str "regex_pattern")]
  | .errorObj n m => Json.obj [("__type", .str "Error"), ("message", .str m), ("name", .str n)]
  | .obj props => Json.obj (jsPropsToSerde props)
  | .symbol _ => Json.obj [("__type", .str "symbol"), ("description", .str "symbol")]

/-- Element-wise conversion of a sandbox array (`engine.rs:641-648`). -/
def jsArrToSerde : List JsVal → List Json
  | [] => []
  | v :: vs => jsValueToSerdeValue v :: jsArrToSerde vs

/-- Conversion of a plain object's own enumerable properties
(`engine.rs:695-700`). -/
def jsPropsToSerde : List (String × JsVal) → List (String × Json)
  | [] => []
  | (k, v) :: ps => (k, jsValueToSerdeValue v) :: jsPropsToSerde ps

end

mutual

/-- The host-to-sandbox half of the bridge for context injection
(`engine.rs:139-142`): the host serializes `context_data` to JSON text and the
sandbox reparses it via `const context = {json}`. JSON cannot denote
`undefined`, functions, dates, regexes, errors or symbols, so the image is the
plain fragment of `JsVal`; every JSON number reparses as a JavaScript number
carrying the same (integer-restricted) value. -/
def serdeToJsValue : Json → JsVal
  | .null => .null
  | .bool b => .bool b
  | .num (.int n) => .num (.finite n)
  | .num (.float n) => .num (.finite n)
  | .str s => .str s
  | .arr xs => .arr (serdeArrToJs xs)
  | .obj fs => .obj (serdeObjToJs fs)

/-- Element-wise reparse of a JSON array into the sandbox. -/
def serdeArrToJs : List Json → List JsVal
  | [] => []
  | v :: vs => serdeToJsValue v :: serdeArrToJs vs

/-- Field-wise reparse of a JSON object into the sandbox (field order is the
serialization order, i.e. the `BTreeMap` key order). -/
def serdeObjToJs : List (String × Json) → List (String × JsVal)
  | [] => []
  | (k, v) :: ps => (k, serdeToJsValue v) :: serdeObjToJs ps

end

mutual

/-- Re-representation of every number of a JSON value in `serde_json`'s float
variant, leaving all other structure untouched. This is the exact distortion
the round trip through the sandbox applies (see `roundtrip_eq_floatify`). -/
def floatifyNums : Json → Json
  | .null => .null
  | .bool b => .bool b
  | .num (.int n) => .num (.float n)
  | .num (.float n) => .num (.float n)
  | .str s => .str s
  | .arr xs => .arr (floatifyArr xs)
  | .obj fs => .obj (floatifyObj fs)

/-- `floatifyNums` on each element of an array. -/
def floatifyArr : List Json → List Json
  | [] => []
  | v :: vs => floatifyNums v :: floatifyArr vs

/-- `floatifyNums` on each field of an object. -/
def floatifyObj : List (String × Json) → List (String × Json)
  | [] => []
  | (k, v) :: ps => (k, floatifyNums v) :: floatifyObj ps

end

/-- Occurrence of `pat` as a contiguous sublist: Rust's `str::contains` with
a string pattern, over the character sequences. -/
def charsContain (pat : List Char) : List Char → Bool
  | [] => pat.isEmpty
  | c :: rest => pat.isPrefixOf (c :: rest) || charsContain pat rest

/-- Substring test, as Rust's `str::contains` with a string pattern
(`wrap_script_with_metadata`, `parse_error_message`). -/
def containsSubstr (s pat : String) : Bool := charsContain pat.toList s.toList

/-- Split a character sequence at every newline (the separators are
consumed). -/
def splitOnNewline : List Char → List (List Char)
  | [] => [[]]
  | c :: rest =>
      if c = '\n' then [] :: splitOnNewline rest
      else
        match splitOnNewline rest with
        | [] => [[c]]
        | l :: ls => (c :: l) :: ls

/-- Drop one trailing carriage return, as Rust's `str::lines` does per
line. -/
def stripTrailingCR (l : List Char) : List Char :=
  if l.getLast? = some '\r' then l.dropLast else l

/-- Rust's `str::lines`: split on newline, dropping the trailing empty piece
(a final newline terminates, it does not open a new line) and any trailing
carriage return on each line; the empty string has no lines. -/
def rustLines (s : String) : List String :=
  if s.toList = [] then []
  else
    let parts := splitOnNewline s.toList
    let parts := if parts.getLast? = some [] then parts.dropLast else parts
    parts.map (fun l => String.mk (stripTrailingCR l))

/-- ASCII whitespace, the part of `char::is_whitespace` the claims touch. -/
def isWs (c : Char) : Bool := c = ' ' || c = '\t' || c = '\n' || c = '\r'

/-- Rust's `str::trim`, restricted to ASCII whitespace (no script in the
claims carries Unicode whitespace). -/
def rustTrim (s : String) : String :=
  String.mk (((s.toList.dropWhile isWs).reverse.dropWhile isWs).reverse)

/-- The engine's `SecurityConfig` (`models.rs:38-63`). The two `HashSet`s are
modelled as lists in the source's insertion order; every use below is
order-insensitive. -/
structure SecurityConfig where
  memory_limit : Nat
  stack_size : Nat
  denied_functions : List String
  denied_properties : List String
  disable_eval : Bool
  disable_function_constructor : Bool
  disable_modules : Bool
  enable_strict_mode : Bool
  max_loop_iterations : Option Nat
  max_recursion_depth : Option Nat
  disable_prototype_pollution : Bool
  enable_memory_monitoring : Bool

/-- `SecurityConfig::default` (`models.rs:65-105`). -/
def defaultSecurityConfig : SecurityConfig where
  memory_limit := 8 * 1024 * 1024
  stack_size := 512 * 1024
  denied_functions :=
    ["eval", "Function", "setTimeout", "setInterval", "setImmediate", "require",
     "import", "importScripts", "XMLHttpRequest", "fetch", "WebSocket", "Worker",
     "SharedWorker", "ServiceWorker"]
  denied_properties := ["constructor", "__proto__", "prototype"]
  disable_eval := true
  disable_function_constructor := true
  disable_modules := true
  enable_strict_mode := true
  max_loop_iterations := some 10000
  max_recursion_depth := some 100
  disable_prototype_pollution := true
  enable_memory_monitoring := true

/-- What a global name of the fresh evaluation context is bound to after the
engine's setup scripts ran: an original QuickJS builtin, a security thrower
raising `Error(msg)` when invoked, or one of the `__checkMemory` /
`__checkTimeout` helpers installed by the monitoring script
(`engine.rs:487-508`). -/
inductive GlobalBinding where
  | builtin
  | thrower (msg : String)
  | monitorHelper
deriving Repr, DecidableEq

/-- The global object of one evaluation context, as a partial map from names
to bindings. -/
def GlobalEnv := String → Option GlobalBinding

/-- Property assignment on the global object. -/
def setGlobal (env : GlobalEnv) (name : String) (b : GlobalBinding) : GlobalEnv :=
  fun n => if n = name then some b else env n

/-- Property deletion on the global object. QuickJS's global builtins (`eval`,
`Function`, ...) are configurable, so `delete globalThis[name]` succeeds. -/
def deleteGlobal (env : GlobalEnv) (name : String) : GlobalEnv :=
  fun n => if n = name then none else env n

/-- The message of the thrower installed for a denied function
(`engine.rs:382`). -/
def denyMessage (funcName : String) : String :=
  "Access to \x27" ++ funcName ++ "\x27 is denied for security reasons"

/-- Effect of one iteration of the `denied_functions` loop
(`engine.rs:380-407`): the deny script first overrides the global with a
thrower raising `denyMessage`, then attempts `delete globalThis[name]`, which
succeeds on the (configurable) property, leaving the name unbound. -/
def denyFunction (env : GlobalEnv) (funcName : String) : GlobalEnv :=
  deleteGlobal (setGlobal env funcName (.thrower (denyMessage funcName))) funcName

/-- `apply_security_policies` (`engine.rs:376-514`), as its effect on the
context's global object, in source order: the `denied_functions` loop; then,
when enabled, the `eval` deny script (final binding: a thrower raising
"eval() is disabled for security reasons", pinned by `defineProperty`); the
`Function` deny script; the module deny script (which only overrides `import`
and `require` when they exist); and finally the monitoring script installing
`__checkMemory` and `__checkTimeout`. -/
def applySecurityPolicies (cfg : SecurityConfig) (env : GlobalEnv) : GlobalEnv :=
  let env := cfg.denied_functions.foldl denyFunction env
  let env := if cfg.disable_eval
    then setGlobal env "eval" (.thrower "eval() is disabled for security reasons")
    else env
  let env := if cfg.disable_function_constructor
    then setGlobal env "Function" (.thrower "Function constructor is disabled for security reasons")
    else env
  let env := if cfg.disable_modules
    then
      let env := match env "import" with
        | some _ => setGlobal env "import" (.thrower "Dynamic imports are disabled for security reasons")
        | none => env
      match env "require" with
        | some _ => setGlobal env "require" (.thrower "require() is disabled for security reasons")
        | none => env
    else env
  setGlobal (setGlobal env "__checkMemory" .monitorHelper) "__checkTimeout" .monitorHelper

/-- The fresh QuickJS context's own globals, restricted to the names the
policies and the claims inspect: `eval` and `Function` are builtins of every
context; `import`, `require`, `fetch` and the like do not exist in QuickJS. -/
def quickjsBaseGlobals : GlobalEnv :=
  fun name => if name = "eval" ∨ name = "Function" then some .builtin else none

/-- Modelled from the spec: `src/monitor-scripting/src/script_wrapper.js` is
loaded by `include_str!` at `engine.rs:213` but the file is absent from the
sources. Per spec section 4.3 the wrapper is an IIFE that installs a
cooperative timeout check, catches the top-level exception, enriches its
`line`/`column` with "unknown" when absent, and re-raises; the user source
replaces the `{script}` placeholder. Only the placeholder mechanics matter to
the claims; no claim depends on the wrapper's exact text. -/
def scriptWrapperTemplate : String :=
  "(function() \x7b try \x7b __checkTimeout(); {script} \x7d catch (e) \x7b if (!e.line) e.line = \x22unknown\x22; if (!e.column) e.column = \x22unknown\x22; throw e; \x7d \x7d)()"

/-- `wrap_script_with_metadata` (`engine.rs:200-217`): a trimmed source of at
most 2 lines containing none of `function`, `var `, `let `, `const ` is
returned verbatim; anything else is substituted into the wrapper template. -/
def wrapScriptWithMetadata (script : String) : String :=
  let trimmed := rustTrim script
  if (rustLines trimmed).length ≤ 2
      && !containsSubstr trimmed "function"
      && !containsSubstr trimmed "var "
      && !containsSubstr trimmed "let "
      && !containsSubstr trimmed "const "
  then script
  else scriptWrapperTemplate.replace "{script}" script

/-- The error value `ctx.eval` hands back to the host, mirroring
`rquickjs::Error` as `execute_script` consumes it: `exception` is
`Error::Exception` (a JavaScript throw whose details the host does not fetch);
`other` covers every other variant via its `to_string()`. -/
inductive JsError where
  | exception
  | other (msg : String)
deriving Repr

/-- `get_script_preview` (`engine.rs:330-362`): up to 10 lines (or a window
around the error line) with 1-based numbers, an `is_error` flag, the total
line count and the shown range. Object fields in `BTreeMap` key order. -/
def getScriptPreview (script : String) (errorLine : Option Nat) : Json :=
  let lines := rustLines script
  let totalLines := lines.length
  let startStopHi : Nat × Nat × Option Nat :=
    match errorLine with
    | some errLine => (errLine - 2, min (errLine + 3) totalLines, some errLine)
    | none => (0, min 10 totalLines, none)
  let start := startStopHi.1
  let stop := startStopHi.2.1
  let highlight := startStopHi.2.2
  let previewLines : List Json :=
    (((lines.drop start).take (stop - start)).enum).map (fun p =>
      let lineNum := start + p.1 + 1
      Json.obj [("content", .str p.2),
                ("is_error", .bool (highlight.elim false (fun h => h == lineNum - 1))),
                ("line", .num (.int lineNum))])
  Json.obj [("lines", .arr previewLines),
            ("showing_range", .str (toString (start + 1) ++ "-" ++ toString stop)),
            ("total_lines", .num (.int totalLines))]

/-- `parse_error_message` (`engine.rs:283-316`): scan the message for the
tokens `SyntaxError`, `ReferenceError`, `TypeError` and build the
corresponding diagnostic object, else `none`. -/
def parseErrorMessage (errorMsg script : String) : Option Json :=
  if containsSubstr errorMsg "SyntaxError" then
    some (Json.obj [("message", .str errorMsg),
                    ("script_preview", getScriptPreview script none),
                    ("suggestion", .str "Check for missing semicolons, brackets, or invalid syntax"),
                    ("type", .str "syntax_error")])
  else if containsSubstr errorMsg "ReferenceError" then
    some (Json.obj [("message", .str errorMsg),
                    ("script_preview", getScriptPreview script none),
                    ("suggestion", .str "Check for undefined variables or functions"),
                    ("type", .str "reference_error")])
  else if containsSubstr errorMsg "TypeError" then
    some (Json.obj [("message", .str errorMsg),
                    ("script_preview", getScriptPreview script none),
                    ("suggestion", .str "Check for incorrect data types or null/undefined values"),
                    ("type", .str "type_error")])
  else none

/-- `extract_detailed_error` (`engine.rs:245-269`): a JavaScript exception
becomes the fixed `exception` diagnostic — the host does not read the thrown
value, so the message is always "JavaScript exception occurred"; other errors
go through `parse_error_message` with a `runtime_error` fallback. -/
def extractDetailedError (e : JsError) (originalScript : String) : Json :=
  match e with
  | .exception =>
      Json.obj [("details", .str "Exception details not available in this context"),
                ("message", .str "JavaScript exception occurred"),
                ("type", .str "exception")]
  | .other msg =>
      match parseErrorMessage msg originalScript with
      | some info => info
      | none =>
          Json.obj [("message", .str msg),
                    ("script_preview", getScriptPreview originalScript none),
                    ("type", .str "runtime_error")]

/-- `ScriptResult` (`models.rs:11-17`). -/
structure ScriptResult where
  success : Bool
  result : Option Json
  error : Option Json
  execution_time_ms : Nat
  memory_usage : Option Nat
deriving Repr

/-- `execute_script` (`engine.rs:120-186`) after the foreign evaluation step.
`timeoutMs` is the engine's configured timeout: the source only copies it into
the sandbox global `__timeout_ms` (`engine.rs:155-156`) for the cooperative
`__checkTimeout` helper — it never bounds the evaluation on the host side.
`contextData` is only serialized into the sandbox (`engine.rs:140-141`).
`evalOutcome` is what `ctx.eval` of `wrapScriptWithMetadata script` (run after
`applySecurityPolicies` and the context/utility injection) returned, and
`elapsedMs` the measured wall-clock time. The host then builds the
`ScriptResult` from the outcome alone. -/
def executeScript (timeoutMs : Nat) (script : String) (contextData : Json)
    (evalOutcome : Except JsError JsVal) (elapsedMs : Nat) : ScriptResult :=
  match evalOutcome with
  | .ok v =>
      { success := true, result := some (jsValueToSerdeValue v), error := none,
        execution_time_ms := elapsedMs, memory_usage := none }
  | .error e =>
      { success := false, result := none, error := some (extractDetailedError e script),
        execution_time_ms := elapsedMs, memory_usage := none }

/-- `ValidationContext` (`models.rs:20-25`); the headers `HashMap` is modelled
as an association list in the serializer's (sorted) key order. -/
structure ValidationContext where
  status_code : Nat
  headers : List (String × String)
  body : String
  response_time : Nat

/-- `serde_json::to_value` of a `ValidationContext` (`engine.rs:555`): a JSON
object over the struct's fields, keys in `BTreeMap` order. -/
def validationContextToJson (c : ValidationContext) : Json :=
  Json.obj [("body", .str c.body),
            ("headers", .obj (c.headers.map (fun p => (p.1, Json.str p.2)))),
            ("response_time", .num (.int c.response_time)),
            ("status_code", .num (.int c.status_code))]

/-- The truthiness test of `execute_validation_script` (`engine.rs:564-575`),
applied to the bridged `ScriptResult.result`: booleans by value, `null` false,
numbers by `as_f64 != 0.0`, strings and arrays by non-emptiness, and every
object — including the tagged forms the bridge produces for `undefined`,
`NaN` and infinities — truthy. -/
def resultIsTruthy : Json → Bool
  | .bool b => b
  | .null => false
  | .num (.int n) => n != 0
  | .num (.float n) => n != 0
  | .str s => !s.isEmpty
  | .arr a => !a.isEmpty
  | .obj _ => true

/-- `ValidationResult` (`models.rs:28-34`). -/
structure ValidationResult where
  passed : Bool
  message : String
  details : Option Json
  error_details : Option Json
  execution_time_ms : Nat
deriving Repr

/-- `execute_validation_script` (`engine.rs:550-596`): serialize the context,
run `execute_script`, and derive `passed`: on success, the truthiness of the
result (`unwrap_or(true)` when absent); on failure, `false` with the message
taken from the diagnostic's `message` field when it is a string, else
"Script execution failed". -/
def executeValidationScript (timeoutMs : Nat) (script : String)
    (responseData : ValidationContext) (evalOutcome : Except JsError JsVal)
    (elapsedMs : Nat) : ValidationResult :=
  let scriptResult :=
    executeScript timeoutMs script (validationContextToJson responseData) evalOutcome elapsedMs
  let pm : Bool × String :=
    if scriptResult.success then
      (((scriptResult.result.map resultIsTruthy).getD true), "Validation passed")
    else
      (false,
       (((scriptResult.error.bind (fun e => e.getField "message")).bind Json.asString).getD
          "Script execution failed"))
  { passed := pm.1, message := pm.2, details := scriptResult.result,
    error_details := scriptResult.error, execution_time_ms := scriptResult.execution_time_ms }

/-- `Monitor` (`monitor-core/src/models.rs:7-21`); the `Uuid` is an opaque
identifier, timestamps are epoch instants. -/
structure Monitor where
  id : Nat
  name : String
  endpoint : String
  method : String
  headers : Option Json
  body : Option String
  expected_status : Int
  timeout : Int
  interval : Int
  script : Option String
  enabled : Bool
  created_at : Int
  updated_at : Int

/-- `MonitorResult` (`monitor-core/src/models.rs:24-33`). -/
structure MonitorResult where
  id : Nat
  monitor_id : Nat
  status : String
  response_time : Int
  response_code : Option Int
  response_body : Option String
  error_message : Option String
  checked_at : Int
deriving Repr

/-- Outcome of the foreign HTTP transaction in `execute_monitor_check`
(`scheduler.rs:154-157`), i.e. of `tokio::time::timeout(monitor.timeout,
request.send())`: `completed` is `Ok(Ok(response))` with the observed status
code and the result of `response.text()` (`none` when the body read failed —
the source then takes `unwrap_or_default`); `transportError` is `Ok(Err(e))`
with `e.to_string()`; `timedOut` is `Err(_)`, the elapsed ceiling. -/
inductive HttpOutcome where
  | completed (statusCode : Int) (textResult : Option String)
  | transportError (message : String)
  | timedOut
deriving Repr

/-- The `MonitorResult` that `execute_monitor_check` (`scheduler.rs:129-219`)
builds and persists for one firing. `newId` is the fresh `Uuid::new_v4`,
`elapsedMs` the measured `start_time.elapsed().as_millis()`, `now` the
`Utc::now()` timestamp; persistence (`save_monitor_result`) and logging are
external effects on this value. The function uses only the monitor's
`expected_status` besides the outcome — in particular `monitor.script` is
never read: no branch of the source evaluates a script. -/
def executeMonitorCheck (m : Monitor) (outcome : HttpOutcome) (newId : Nat)
    (elapsedMs : Int) (now : Int) : MonitorResult :=
  match outcome with
  | .completed statusCode textResult =>
      { id := newId, monitor_id := m.id,
        status := if statusCode = m.expected_status then "success" else "failure",
        response_time := elapsedMs, response_code := some statusCode,
        response_body := some (textResult.getD ""), error_message := none,
        checked_at := now }
  | .transportError e =>
      { id := newId, monitor_id := m.id, status := "error",
        response_time := elapsedMs, response_code := none, response_body := none,
        error_message := some e, checked_at := now }
  | .timedOut =>
      { id := newId, monitor_id := m.id, status := "timeout",
        response_time := elapsedMs, response_code := none, response_body := none,
        error_message := some "Request timeout", checked_at := now }

/-- The cron expression `schedule_monitor` builds at `scheduler.rs:98`:
`format!("0/{} * * * * *", interval)`, for every interval, with no validation
or normalization anywhere in the function. -/
def cronExpression (interval : Int) : String :=
  "0/" ++ toString interval ++ " * * * * *"

/-- `schedule_monitor` (`scheduler.rs:92-118`): format the cron expression and
hand it to the cron backend. `newJob` models the foreign
`Job::new_async(&cron_expression, ...)` followed by `scheduler.add(job)`; its
error is the `Error::scheduler` the source maps registration failures to.
The source has no other branch: whatever the interval, the formatted
expression goes to the backend unchanged. -/
def scheduleMonitor (newJob : String → Except String Unit) (m : Monitor) :
    Except String Unit :=
  newJob (cronExpression m.interval)

/-- `load_and_schedule_monitors` (`scheduler.rs:53-62`): schedule each enabled
monitor in turn, with `self.schedule_monitor(monitor).await?` — the `?`
returns the first registration error to the caller, abandoning the loop. The
returned list collects the names of the monitors actually scheduled (the
source logs "Scheduled monitor: {name}" for exactly these). -/
def loadAndScheduleMonitors (newJob : String → Except String Unit) :
    List Monitor → Except String (List String)
  | [] => .ok []
  | m :: rest =>
      match scheduleMonitor newJob m with
      | .error e => .error e
      | .ok _ =>
          match loadAndScheduleMonitors newJob rest with
          | .error e => .error e
          | .ok names => .ok (m.name :: names)

/-- `DatabaseConfig` (`config.rs:5-12`). -/
structure DatabaseConfig where
  host : String
  port : Nat
  username : String
  password : String
  database : String
  max_connections : Nat
deriving Repr, DecidableEq

/-- `RedisConfig` (`config.rs:15-18`). -/
structure RedisConfig where
  url : String
  max_connections : Nat
deriving Repr, DecidableEq

/-- `ServerConfig` (`config.rs:21-24`). -/
structure ServerConfig where
  host : String
  port : Nat
deriving Repr, DecidableEq

/-- `AuthConfig` (`config.rs:27-30`). -/
structure AuthConfig where
  jwt_secret : String
  jwt_expiration : Int
deriving Repr, DecidableEq

/-- `Config` (`config.rs:33-38`). -/
structure Config where
  database : DatabaseConfig
  redis : RedisConfig
  server : ServerConfig
  auth : AuthConfig
deriving Repr, DecidableEq

/-- The process environment, as `std::env::var` sees it. -/
def Environ := String → Option String

/-- Rust's `str::parse::<u16>` (`config.rs:67`): an optional leading `+`,
then one or more ASCII digits, value at most 65535; anything else is an
error. -/
def parseU16 (s : String) : Option Nat :=
  let digits : List Char :=
    match s.toList with
    | '+' :: rest => rest
    | cs => cs
  if digits.isEmpty || !digits.all Char.isDigit then none
  else
    let n := digits.foldl (fun acc c => acc * 10 + (c.toNat - 48)) 0
    if n ≤ 65535 then some n else none

/-- `Config::from_env` (`config.rs:41-72`). The builder's defaults
(`database.host`, `database.port`, `database.max_connections`,
`redis.max_connections`, `server.host`, `server.port`,
`auth.jwt_expiration`) are overridden by environment variables exactly as the
source does: the database credentials fall back to "monitor" / "password" /
"monitor" when unset, `REDIS_URL` and `JWT_SECRET` to their literals, and
`PORT` is parsed with `parse::<u16>().unwrap_or(8080)`. When `DATABASE_URL`
is set the builder stores `database.url` instead of the credential keys and
`try_deserialize` fails on the missing `DatabaseConfig` fields. -/
def configFromEnv (env : Environ) : Except String Config :=
  match env "DATABASE_URL" with
  | some _ => .error "missing field username in database"
  | none =>
      .ok
        { database :=
            { host := "localhost", port := 5432,
              username := (env "DATABASE_USERNAME").getD "monitor",
              password := (env "DATABASE_PASSWORD").getD "password",
              database := (env "DATABASE_NAME").getD "monitor",
              max_connections := 10 },
          redis :=
            { url := (env "REDIS_URL").getD "redis://localhost:6379",
              max_connections := 10 },
          server :=
            { host := "0.0.0.0",
              port := match env "PORT" with
                | some p => (parseU16 p).getD 8080
                | none => 8080 },
          auth :=
            { jwt_secret := (env "JWT_SECRET").getD "your-secret-key",
              jwt_expiration := 86400 } }

/-- A concrete enabled monitor shaped like the spec's scenario monitors:
`GET http://h/ok`, expected status 200, timeout 5 s, interval 30 s, no
script. -/
def baseMonitor : Monitor where
  id := 1
  name := "m"
  endpoint := "http://h/ok"
  method := "GET"
  headers := none
  body := none
  expected_status := 200
  timeout := 5
  interval := 30
  script := none
  enabled := true
  created_at := 0
  updated_at := 0

/-- The spec's scenario-5 monitor: non-empty validation script
`assert(context.status_code === 200, 'Status code should be 200')`
(which fails on any non-200 response). -/
def scriptMonitor : Monitor :=
  { baseMonitor with
    script := some "assert(context.status_code === 200, \x27Status code should be 200\x27)" }

/-- A monitor whose interval, 75 seconds, exceeds what the sub-minute cron
grammar `0/N * * * * *` can express as a period. -/
def m75 : Monitor := { baseMonitor with name := "m75", interval := 75 }

/-- A second, well-formed monitor with a 30-second interval. -/
def m30 : Monitor := { baseMonitor with name := "m30" }

/-- A cron backend (`Job::new_async` + `scheduler.add`) that rejects exactly
the expression built for the 75-second interval, as a parser refusing a
seconds-field step outside 0-59 would, and accepts everything else. -/
def failingNewJob : String → Except String Unit :=
  fun expr => if expr = "0/75 * * * * *" then .error "bad cron expression" else .ok ()

/-- A concrete validation context (200 response, empty body, 150 ms). -/
def plainValidationContext : ValidationContext :=
  { status_code := 200, headers := [], body := "", response_time := 150 }

/-- A concrete environment: every variable unset except a non-numeric
`PORT`. -/
def witnessEnv : Environ := fun name => if name = "PORT" then some "abc" else none

mutual

/-- Helper for the round-trip claim: injecting a JSON value into the sandbox
and bridging it back re-represents every number in the float variant and
changes nothing else. -/
theorem roundtrip_eq_floatify : ∀ (v : Json),
    jsValueToSerdeValue (serdeToJsValue v) = floatifyNums v
  | .null => rfl
  | .bool _ => rfl
  | .num (.int _) => rfl
  | .num (.float _) => rfl
  | .str _ => rfl
  | .arr xs => by
      simp [serdeToJsValue, jsValueToSerdeValue, floatifyNums, roundtrip_arr xs]
  | .obj fs => by
      simp [serdeToJsValue, jsValueToSerdeValue, floatifyNums, roundtrip_obj fs]

/-- Element-wise form of `roundtrip_eq_floatify` for arrays. -/
theorem roundtrip_arr : ∀ (xs : List Json),
    jsArrToSerde (serdeArrToJs xs) = floatifyArr xs
  | [] => rfl
  | v :: vs => by
      simp [serdeArrToJs, jsArrToSerde, floatifyArr, roundtrip_eq_floatify v, roundtrip_arr vs]

/-- Field-wise form of `roundtrip_eq_floatify` for objects. -/
theorem roundtrip_obj : ∀ (ps : List (String × Json)),
    jsPropsToSerde (serdeObjToJs ps) = floatifyObj ps
  | [] => rfl
  | (k, v) :: ps => by
      simp [serdeObjToJs, jsPropsToSerde, floatifyObj, roundtrip_eq_floatify v, roundtrip_obj ps]

end

/-- C1 — counterexample. The scenario-5 firing: the monitor carries the
non-empty script `assert(context.status_code === 200, 'Status code should be
200')` (which throws on a 500), the server answers 500, the classification is
a completed response (neither timeout nor transport error). The claim demands
`error_message = Some("Status code should be 200")`; the code persists
`error_message = None`, and indeed the identical row it would persist for the
same monitor without any script — `execute_monitor_check` never evaluates
`monitor.script`. -/
theorem C1_counterexample :
    (executeMonitorCheck scriptMonitor (.completed 500 (some "Error")) 2 12 0).error_message
        = none
    ∧ executeMonitorCheck scriptMonitor (.completed 500 (some "Error")) 2 12 0
        = executeMonitorCheck { scriptMonitor with script := none }
            (.completed 500 (some "Error")) 2 12 0 :=
  ⟨rfl, rfl⟩

/-- C1 — amended. The executor ignores `monitor.script` entirely: the
persisted `MonitorResult` is invariant under changing the script, and for a
completed response the status is `success` iff the status code equals
`expected_status`, with `error_message = None`. -/
theorem C1_amended_status_code_only :
    ∀ (m : Monitor) (o : HttpOutcome) (newId : Nat) (elapsedMs now : Int)
      (s : Option String),
      executeMonitorCheck { m with script := s } o newId elapsedMs now
          = executeMonitorCheck m o newId elapsedMs now
      ∧ ∀ (code : Int) (text : Option String),
          (executeMonitorCheck m (.completed code text) newId elapsedMs now).status
              = (if code = m.expected_status then "success" else "failure")
          ∧ (executeMonitorCheck m (.completed code text) newId elapsedMs now).error_message
              = none := by
  intro m o newId elapsedMs now s
  refine ⟨?_, fun code text => ⟨rfl, rfl⟩⟩
  cases o <;> rfl

/-- C6 — counterexample. For the enabled monitor with interval 75 (≥ 60),
`schedule_monitor` builds the sub-minute-grammar expression
`0/75 * * * * *` and hands it to the cron backend with no refusal and no
normalization: with a backend that accepts it, scheduling silently
succeeds. -/
theorem C6_counterexample :
    cronExpression m75.interval = "0/75 * * * * *"
    ∧ (60 : Int) ≤ m75.interval
    ∧ scheduleMonitor (fun _ => .ok ()) m75 = .ok () :=
  ⟨rfl, by decide, rfl⟩

/-- C6 — amended. `schedule_monitor` performs no load-time validation or
normalization of the interval: for every monitor it hands the backend exactly
`format!("0/{} * * * * *", interval)`, so intervals ≥ 60 are silently
formatted into the sub-minute grammar. -/
theorem C6_amended_no_validation :
    ∀ (newJob : String → Except String Unit) (m : Monitor),
      scheduleMonitor newJob m = newJob ("0/" ++ toString m.interval ++ " * * * * *") :=
  fun _ _ => rfl

/-- C7 — counterexample. With a backend that rejects the expression built for
`m75` and accepts all others, `load_and_schedule_monitors [m75, m30]`
propagates the registration error — `m30` is never scheduled — although
`[m30]` alone schedules fine. The claim demands the failure be logged and
skipped with every other monitor still scheduled. -/
theorem C7_counterexample :
    loadAndScheduleMonitors failingNewJob [m75, m30] = .error "bad cron expression"
    ∧ loadAndScheduleMonitors failingNewJob [m30] = .ok ["m30"] :=
  ⟨rfl, rfl⟩

/-- C7 — amended. The `?` at `scheduler.rs:58` aborts the loop: when
registration fails for the first monitor of the list, the whole call returns
that error and none of the remaining monitors is scheduled. -/
theorem C7_amended_first_failure_aborts :
    ∀ (newJob : String → Except String Unit) (m : Monitor) (rest : List Monitor)
      (e : String),
      scheduleMonitor newJob m = .error e →
      loadAndScheduleMonitors newJob (m :: rest) = .error e := by
  intro newJob m rest e h
  simp [loadAndScheduleMonitors, h]

/-- C7 — witness for `C7_amended_first_failure_aborts` at the concrete
backend and monitors. -/
theorem C7_witness :
    scheduleMonitor failingNewJob m75 = .error "bad cron expression"
    ∧ loadAndScheduleMonitors failingNewJob [m75, m30] = .error "bad cron expression" :=
  ⟨rfl, C7_amended_first_failure_aborts failingNewJob m75 [m30] "bad cron expression" rfl⟩

/-- C9 — confirmed. On every `MonitorResult` the executor builds,
`error_message` is present exactly when the status is `error` or `timeout`;
results with status `success` or `failure` carry `error_message = None`.
(The executor never evaluates scripts — see `C1_amended_status_code_only` —
so the claim's "or the script raised" disjunct is uniformly vacuous.) -/
theorem C9_error_message_iff :
    ∀ (m : Monitor) (o : HttpOutcome) (newId : Nat) (elapsedMs now : Int),
      (executeMonitorCheck m o newId elapsedMs now).error_message.isSome
        ↔ ((executeMonitorCheck m o newId elapsedMs now).status = "error"
            ∨ (executeMonitorCheck m o newId elapsedMs now).status = "timeout") := by
  intro m o newId elapsedMs now
  cases o with
  | completed code text =>
      simp only [executeMonitorCheck, Option.isSome_none, Bool.false_eq_true, false_iff]
      split <;> simp
  | transportError e => simp [executeMonitorCheck]
  | timedOut => simp [executeMonitorCheck]

/-- C10 — confirmed. Whenever `DATABASE_URL` is absent, `Config::from_env`
succeeds regardless of the credential variables, `JWT_SECRET` and `PORT`: an
unset `DATABASE_USERNAME` / `DATABASE_PASSWORD` / `DATABASE_NAME` falls back
to "monitor" / "password" / "monitor", an unset `JWT_SECRET` to
"your-secret-key", and an unset or non-numeric `PORT` to 8080 — startup
proceeds on these defaults instead of reporting a configuration error. -/
theorem C10_env_defaults :
    ∀ (env : Environ),
      env "DATABASE_URL" = none →
      env "DATABASE_USERNAME" = none →
      env "DATABASE_PASSWORD" = none →
      env "DATABASE_NAME" = none →
      env "JWT_SECRET" = none →
      (∀ p, env "PORT" = some p → parseU16 p = none) →
      configFromEnv env
        = .ok { database := { host := "localhost", port := 5432, username := "monitor",
                              password := "password", database := "monitor",
                              max_connections := 10 },
                redis := { url := (env "REDIS_URL").getD "redis://localhost:6379",
                           max_connections := 10 },
                server := { host := "0.0.0.0", port := 8080 },
                auth := { jwt_secret := "your-secret-key", jwt_expiration := 86400 } } := by
  intro env hurl huser hpass hname hjwt hport
  cases hp : env "PORT" with
  | none => simp [configFromEnv, hurl, huser, hpass, hname, hjwt, hp]
  | some p => simp [configFromEnv, hurl, huser, hpass, hname, hjwt, hp, hport p hp]

/-- C10 — witness: the concrete environment with everything unset and a
non-numeric `PORT=abc` satisfies the hypotheses, and the loader returns the
default-filled configuration. -/
theorem C10_witness :
    (witnessEnv "DATABASE_URL" = none
     ∧ witnessEnv "DATABASE_USERNAME" = none
     ∧ witnessEnv "DATABASE_PASSWORD" = none
     ∧ witnessEnv "DATABASE_NAME" = none
     ∧ witnessEnv "JWT_SECRET" = none
     ∧ (∀ p, witnessEnv "PORT" = some p → parseU16 p = none))
    ∧ configFromEnv witnessEnv
        = .ok { database := { host := "localhost", port := 5432, username := "monitor",
                              password := "password", database := "monitor",
                              max_connections := 10 },
                redis := { url := "redis://localhost:6379", max_connections := 10 },
                server := { host := "0.0.0.0", port := 8080 },
                auth := { jwt_secret := "your-secret-key", jwt_expiration := 86400 } } := by
  have hport : ∀ p, witnessEnv "PORT" = some p → parseU16 p = none := by
    intro p hp
    simp [witnessEnv] at hp
    subst hp
    decide
  exact ⟨⟨rfl, rfl, rfl, rfl, rfl, hport⟩,
         C10_env_defaults witnessEnv rfl rfl rfl rfl rfl hport⟩

/-- C2 — the code at the failing input. The infinite-loop script
`while(true){}` is one trimmed line containing no declaration keyword, so
`wrap_script_with_metadata` returns it verbatim: no cooperative
`__checkTimeout` call is ever inserted into it. Moreover the host-side result
of `execute_script` is independent of the engine's configured timeout — the
source only copies `self.timeout` into the sandbox global `__timeout_ms`
(`engine.rs:155-156`) and installs no interrupt handler and no wall-clock
deadline around `ctx.eval`, so nothing stops a non-terminating evaluation. -/
theorem C2_no_hard_timeout :
    wrapScriptWithMetadata "while(true)\x7b\x7d" = "while(true)\x7b\x7d"
    ∧ ∀ (t1 t2 : Nat) (script : String) (ctx : Json)
        (outcome : Except JsError JsVal) (e : Nat),
        executeScript t1 script ctx outcome e = executeScript t2 script ctx outcome e := by
  refine ⟨?_, ?_⟩
  · rfl
  · intro t1 t2 script ctx outcome e
    cases outcome <;> rfl

/-- C3 — counterexample. The one-line declaration-free sources `NaN` and
`undefined` are evaluated verbatim and complete, returning JavaScript `NaN`
resp. `undefined`; the bridge turns both into tagged objects, which the
truthiness test counts as truthy, so `passed = true` — the claim demands
`passed = false` for both. -/
theorem C3_counterexample :
    (executeValidationScript 30000 "NaN" plainValidationContext (.ok (.num .nan)) 1).passed
        = true
    ∧ (executeValidationScript 30000 "undefined" plainValidationContext (.ok .undef) 1).passed
        = true :=
  ⟨rfl, rfl⟩

/-- C3 — amended. `passed` is exactly: the script completed and the *bridged*
result (`js_value_to_serde_value` of the returned value) is truthy under the
`serde_json` case split of `engine.rs:564-575`. Since `undefined`, `NaN` and
infinities bridge to tagged objects, scripts returning them yield
`passed = true`; `false`, `null`, `0`, `""` and `[]` yield `passed = false`,
and any object yields `passed = true`. -/
theorem C3_amended_truthiness_of_bridged :
    ∀ (t : Nat) (script : String) (c : ValidationContext)
      (outcome : Except JsError JsVal) (e : Nat),
      (executeValidationScript t script c outcome e).passed
        = match outcome with
          | .ok v => resultIsTruthy (jsValueToSerdeValue v)
          | .error _ => false := by
  intro t script c outcome e
  cases outcome <;> rfl

/-- C4 — counterexample. Inject the JSON number `5` (integer-represented, as
any integer literal in a `serde_json` value is) as `context` and run the
verbatim one-line script `context`: the sandbox returns the number 5, whose
bridge image is `json!(5.0)` — float-represented, because
`js_value_to_serde_value` goes through `as_number`'s `f64`. `serde_json`'s
structural equality distinguishes the two (the repository's own
`test_simple_script_execution` asserts `json!(2.0)` for `1 + 1`), so the
emerging value is not structurally equal to the injected one. -/
theorem C4_counterexample :
    (executeScript 30000 "context" (Json.num (.int 5))
        (.ok (serdeToJsValue (Json.num (.int 5)))) 1).result
      = some (Json.num (.float 5))
    ∧ Json.num (.float 5) ≠ Json.num (.int 5) :=
  ⟨rfl, by simp⟩

/-- C4 — amended. The round trip is the identity up to number
representation: a script returning `context` verbatim produces exactly
`floatifyNums v` — every number re-emerges float-represented, all other
structure (including every object and array, recursively) is preserved.
JSON cannot denote `undefined`, so the claim's tagged-`undefined` exception
is vacuous for injected contexts. -/
theorem C4_amended_roundtrip_floatifies :
    ∀ (v : Json) (t e : Nat),
      (executeScript t "context" v (.ok (serdeToJsValue v)) e).result
        = some (floatifyNums v) := by
  intro v t e
  simp [executeScript, roundtrip_eq_floatify v]

/-- C5 — counterexample. The one-line declaration-free source `'eval(x)'` — a
string literal — contains the substring `eval(` but never invokes `eval`;
the sandbox evaluates it to the string `eval(x)`, and the result is
`success = true` even under the default (eval-disabling) policy. -/
theorem C5_counterexample :
    containsSubstr "\x27eval(x)\x27" "eval(" = true
    ∧ (executeScript 30000 "\x27eval(x)\x27" (Json.obj [])
        (.ok (.str "eval(x)")) 1).success = true :=
  ⟨rfl, rfl⟩

/-- C5 — amended. Under the default policy, invoking `eval` does fail, but
not with the claimed message: `apply_security_policies` leaves `eval` bound
to a thrower raising "eval() is disabled for security reasons" (the
`denied_functions` thrower with "Access to 'eval' is denied for security
reasons" is overridden by the later eval-specific block), the script's throw
reaches the host as a bare `rquickjs` Exception, and `execute_script` reports
`success = false` with the fixed diagnostic whose message is "JavaScript
exception occurred" — containing no "Access to 'eval' is denied". -/
theorem C5_amended_eval_denial :
    (applySecurityPolicies defaultSecurityConfig quickjsBaseGlobals) "eval"
        = some (.thrower "eval() is disabled for security reasons")
    ∧ ∀ (t : Nat) (script : String) (ctx : Json) (e : Nat),
        (executeScript t script ctx (.error .exception) e).success = false
        ∧ (executeScript t script ctx (.error .exception) e).error
            = some (Json.obj
                [("details", .str "Exception details not available in this context"),
                 ("message", .str "JavaScript exception occurred"),
                 ("type", .str "exception")]) := by
  refine ⟨?_, fun t script ctx e => ⟨rfl, rfl⟩⟩
  rfl

/-- C8 — counterexample. A `Date` for epoch millisecond 1704067200000
(2024-01-01T00:00:00Z) bridges to a `timestamp` field holding the literal
string "date_object", not the millisecond value; a `RegExp` with source
`^ok$` bridges to a `source` field holding the literal string
"regex_pattern", not the source text. -/
theorem C8_counterexample :
    Json.getField (jsValueToSerdeValue (.date 1704067200000)) "timestamp"
        = some (.str "date_object")
    ∧ some (Json.str "date_object") ≠ some (Json.num (.float 1704067200000))
    ∧ Json.getField (jsValueToSerdeValue (.regexp "^ok$")) "source"
        = some (.str "regex_pattern")
    ∧ "regex_pattern" ≠ "^ok$" :=
  ⟨rfl, by simp, rfl, by decide⟩

/-- C8 — amended. The bridge maps every `Date` object to the constant
`{"__type":"Date","timestamp":"date_object"}` and every `RegExp` object to
the constant `{"__type":"RegExp","source":"regex_pattern"}`, discarding the
date's epoch value and the regular expression's source text. -/
theorem C8_amended_placeholders :
    ∀ (ts : Int) (src : String),
      jsValueToSerdeValue (.date ts)
          = Json.obj [("__type", .str "Date"), ("timestamp", .str "date_object")]
      ∧ jsValueToSerdeValue (.regexp src)
          = Json.obj [("__type", .str "RegExp"), ("source", .str "regex_pattern")] :=
  fun _ _ => ⟨rfl, rfl⟩
